import Mathlib

/-!
Shallow embedding of the posture classifier of `src/posture_analyzer.py`
(class `PostureAnalyzer`): landmark dictionaries, `calculate_angle` and
`analyze_posture`, with Python floats idealised as real numbers.  The
branch bodies of `analyze_posture` (shoulder midpoint, neck estimate,
hip-angle verdict, shoulder-only verdict) are factored into named
definitions, each translating a contiguous range of the Python source.
-/

open Classical

/-- One detected keypoint: the Python dict with keys `x`, `y`, `confidence`
produced by `pose_detector.py`. -/
structure Landmark where
  x : ℝ
  y : ℝ
  confidence : ℝ

/-- `landmarks_dict`: a Python dict from MoveNet landmark id to landmark,
modelled as an association list (first binding wins, as in a dict). -/
abbrev LandmarksDict := List (Nat × Landmark)

/-- `landmarks_dict.get(k)`: `None` when the key is absent. -/
def LandmarksDict.get (d : LandmarksDict) (k : Nat) : Option Landmark :=
  (d.find? (fun p => p.1 == k)).map Prod.snd

-- MoveNet landmark ids (class constants of `PostureAnalyzer`).
def NOSE : Nat := 0
def LEFT_SHOULDER : Nat := 5
def RIGHT_SHOULDER : Nat := 6
def LEFT_HIP : Nat := 11
def RIGHT_HIP : Nat := 12

/-- `math.degrees`: radians to degrees. -/
noncomputable def degrees (r : ℝ) : ℝ := r * 180 / Real.pi

/-- `PostureAnalyzer.calculate_angle(point1, point2, point3)`: the angle at
vertex `point2` via the dot-product/arccos formula, cosine clamped to
`[-1, 1]`; `None` when either vector has zero length. -/
noncomputable def calculate_angle (point1 point2 point3 : ℝ × ℝ) : Option ℝ :=
  let vec1 : ℝ × ℝ := (point1.1 - point2.1, point1.2 - point2.2)
  let vec2 : ℝ × ℝ := (point3.1 - point2.1, point3.2 - point2.2)
  let dot_product := vec1.1 * vec2.1 + vec1.2 * vec2.2
  let norm1 := Real.sqrt (vec1.1 ^ 2 + vec1.2 ^ 2)
  let norm2 := Real.sqrt (vec2.1 ^ 2 + vec2.2 ^ 2)
  if norm1 = 0 ∨ norm2 = 0 then none
  else some (degrees (Real.arccos (max (-1) (min 1 (dot_product / (norm1 * norm2))))))

/-- Result dict of `analyze_posture`. -/
structure PostureResult where
  is_slouched : Bool
  confidence : ℝ
  angle : Option ℝ
  message : String

-- Messages of `analyze_posture`; the interpolated numeric value of the
-- f-strings is elided as `…` (no claim depends on the rendered digits).
def msg_no_pose : String := "姿勢を検出できませんでした"
def msg_no_shoulders : String := "肩を検出できませんでした"
def msg_slouched_angle : String := "猫背です。姿勢を直してください！ (角度: …度)"
def msg_ok_angle : String := "姿勢良好です (角度: …度)"
def msg_slouched_pos : String := "猫背です。姿勢を直してください！ (首-肩位置差: …%)"
def msg_ok_pos : String := "姿勢良好です (首-肩位置差: …%)"

/-- A landmark lookup is present with score at least `t`
(Python `p and p.get("confidence", 0) >= t`, i.e. `not (... < t)`). -/
def reliable_ge (p : Option Landmark) (t : ℝ) : Prop :=
  match p with
  | some l => t ≤ l.confidence
  | none => False

/-- A landmark lookup is present with score strictly above `t`
(Python `p and p.get("confidence", 0) > t`, the nose gate). -/
def reliable_gt (p : Option Landmark) (t : ℝ) : Prop :=
  match p with
  | some l => t < l.confidence
  | none => False

/-- The shoulder gate of `analyze_posture` passes: both shoulders present
with confidence not below `0.3` (negation of the Python check
`not ls or ls.conf < 0.3 or not rs or rs.conf < 0.3`). -/
def shoulders_reliable (d : LandmarksDict) : Prop :=
  reliable_ge (d.get LEFT_SHOULDER) 0.3 ∧ reliable_ge (d.get RIGHT_SHOULDER) 0.3

/-- The hip gate of `analyze_posture` passes: both hips present with
confidence `>= 0.3` (Python `lh and lh.conf >= 0.3 and rh and rh.conf >= 0.3`). -/
def hips_reliable (d : LandmarksDict) : Prop :=
  reliable_ge (d.get LEFT_HIP) 0.3 ∧ reliable_ge (d.get RIGHT_HIP) 0.3

/-- `shoulder_mid`: midpoint of the two shoulders (the `(0, 0)` fallback is
never reached behind the shoulder gate). -/
noncomputable def shoulder_mid_of (d : LandmarksDict) : ℝ × ℝ :=
  match d.get LEFT_SHOULDER, d.get RIGHT_SHOULDER with
  | some ls, some rs => ((ls.x + rs.x) / 2, (ls.y + rs.y) / 2)
  | _, _ => (0, 0)

/-- `neck_estimate`: midpoint of nose and shoulder midpoint when the nose is
present with confidence `> 0.3`, else the shoulder midpoint shifted up by
`0.05`. -/
noncomputable def neck_estimate (nose : Option Landmark) (sm : ℝ × ℝ) : ℝ × ℝ :=
  match nose with
  | some n =>
    if 0.3 < n.confidence then ((n.x + sm.1) / 2, (n.y + sm.2) / 2)
    else (sm.1, sm.2 - 0.05)
  | none => (sm.1, sm.2 - 0.05)

/-- The neck estimate of `analyze_posture` for a landmark dict. -/
noncomputable def neck_of (d : LandmarksDict) : ℝ × ℝ :=
  neck_estimate (d.get NOSE) (shoulder_mid_of d)

/-- `hip_mid`: midpoint of the two hips (fallback unreachable behind the
hip gate). -/
noncomputable def hip_mid_of (d : LandmarksDict) : ℝ × ℝ :=
  match d.get LEFT_HIP, d.get RIGHT_HIP with
  | some lh, some rh => ((lh.x + rh.x) / 2, (lh.y + rh.y) / 2)
  | _, _ => (0, 0)

/-- The neck–shoulder–hip angle `calculate_angle(neck_estimate, shoulder_mid,
hip_mid)` computed by the hip branch of `analyze_posture`. -/
noncomputable def hip_angle (d : LandmarksDict) : Option ℝ :=
  calculate_angle (neck_of d) (shoulder_mid_of d) (hip_mid_of d)

/-- Hip-branch verdict (`analyze_posture` lines 135-157): strict comparison
of the computed angle against `180 - threshold_angle`, confidence a linear
ramp over a 30-degree window capped at 1. -/
noncomputable def hip_branch_verdict (threshold_angle angle : ℝ) : PostureResult :=
  if angle < 180 - threshold_angle then
    { is_slouched := true
      confidence := min 1 ((180 - threshold_angle - angle) / 30)
      angle := some angle
      message := msg_slouched_angle }
  else
    { is_slouched := false
      confidence := min 1 ((angle - (180 - threshold_angle)) / 30)
      angle := some angle
      message := msg_ok_angle }

/-- Shoulder-only angle (`analyze_posture` lines 166-180): `90` when the
neck-to-shoulder vector is vertical, else `degrees(atan2(|vy|, |vx|))`,
which for `vx ≠ 0` equals `degrees(arctan(|vy| / |vx|))`. -/
noncomputable def so_angle (neck sm : ℝ × ℝ) : ℝ :=
  if sm.1 - neck.1 = 0 then 90
  else degrees (Real.arctan (|sm.2 - neck.2| / |sm.1 - neck.1|))

/-- `y_diff = neck_estimate.y - shoulder_mid.y` (line 185). -/
def y_diff (neck sm : ℝ × ℝ) : ℝ := neck.2 - sm.2

/-- Shoulder-only verdict (`analyze_posture` lines 159-220): slouched when
`y_diff < -0.015` or the angle exceeds 75 degrees (the Python flag
assignment followed by the `angle > 75` override). -/
noncomputable def shoulder_only_branch (neck sm : ℝ × ℝ) : PostureResult :=
  if y_diff neck sm < -0.015 ∨ 75 < so_angle neck sm then
    { is_slouched := true
      confidence :=
        if 75 < so_angle neck sm then
          max (min 1 (|y_diff neck sm| / 0.08)) (min 1 ((so_angle neck sm - 75) / 15))
        else min 1 (|y_diff neck sm| / 0.08)
      angle := some (so_angle neck sm)
      message := msg_slouched_pos }
  else
    { is_slouched := false
      confidence := min 1 ((0.015 + y_diff neck sm) / 0.03)
      angle := some (so_angle neck sm)
      message := msg_ok_pos }

/-- `PostureAnalyzer.analyze_posture(landmarks_dict)` with threshold
`threshold_angle` (constructor default `35.0`): empty-dict gate, shoulder
gate, hip gate, hip-angle branch with fall-through to the shoulder-only
branch when `calculate_angle` returns `None`. -/
noncomputable def analyze_posture (threshold_angle : ℝ) (landmarks_dict : LandmarksDict) :
    PostureResult :=
  if landmarks_dict.isEmpty = true then
    { is_slouched := false, confidence := 0, angle := none, message := msg_no_pose }
  else if ¬ shoulders_reliable landmarks_dict then
    { is_slouched := false, confidence := 0, angle := none, message := msg_no_shoulders }
  else if hips_reliable landmarks_dict then
    match hip_angle landmarks_dict with
    | some angle => hip_branch_verdict threshold_angle angle
    | none => shoulder_only_branch (neck_of landmarks_dict) (shoulder_mid_of landmarks_dict)
  else
    shoulder_only_branch (neck_of landmarks_dict) (shoulder_mid_of landmarks_dict)

/-- Modelled from the spec: the STRICT-mode message enumerating by name
which of the four required landmarks are missing or unreliable; the STRICT
classifier variant is described in the spec but not present under the
repository sources. -/
def strict_missing_msg (names : List String) : String :=
  names.foldl (fun acc n => acc ++ " " ++ n) "required landmarks missing:"

/-- Modelled from the spec: the names among the four required landmarks
that are missing or below the score threshold, in a fixed order. -/
noncomputable def missing_required (score_threshold : ℝ) (d : LandmarksDict) : List String :=
  (if reliable_ge (d.get LEFT_SHOULDER) score_threshold then [] else ["LEFT_SHOULDER"]) ++
  (if reliable_ge (d.get RIGHT_SHOULDER) score_threshold then [] else ["RIGHT_SHOULDER"]) ++
  (if reliable_ge (d.get LEFT_HIP) score_threshold then [] else ["LEFT_HIP"]) ++
  (if reliable_ge (d.get RIGHT_HIP) score_threshold then [] else ["RIGHT_HIP"])

/-- Modelled from the spec: failure message of the degenerate-geometry case
of the STRICT variant. -/
def msg_angle_unavailable : String := "angle not computable"

/-- Modelled from the spec: the STRICT-mode classifier variant (spec §4,
steps 1-4a), which is described by the spec but whose source is not among
the repository files: shoulder gate first, then all four required landmarks
(both shoulders, both hips) must be present and reliable or a failure
result enumerating the missing ones by name is returned — no fallback to
the shoulder-only branch.  The hip-branch geometry reuses the definitions
translated from `analyze_posture`. -/
noncomputable def classify_strict (score_threshold threshold_angle : ℝ) (d : LandmarksDict) :
    PostureResult :=
  if d.isEmpty = true then
    { is_slouched := false, confidence := 0, angle := none, message := msg_no_pose }
  else if ¬ (reliable_ge (d.get LEFT_SHOULDER) score_threshold ∧
             reliable_ge (d.get RIGHT_SHOULDER) score_threshold) then
    { is_slouched := false, confidence := 0, angle := none, message := msg_no_shoulders }
  else if missing_required score_threshold d ≠ [] then
    { is_slouched := false, confidence := 0, angle := none,
      message := strict_missing_msg (missing_required score_threshold d) }
  else
    match hip_angle d with
    | some a => hip_branch_verdict threshold_angle a
    | none =>
      { is_slouched := false, confidence := 0, angle := none, message := msg_angle_unavailable }

-- Concrete landmark dictionaries used as test inputs below.

/-- Shoulders, hips, no nose; neck, shoulder mid and hip mid collinear. -/
def exCollinear : LandmarksDict :=
  [(LEFT_SHOULDER, ⟨0.4, 0.5, 0.9⟩), (RIGHT_SHOULDER, ⟨0.6, 0.5, 0.9⟩),
   (LEFT_HIP, ⟨0.45, 0.8, 0.9⟩), (RIGHT_HIP, ⟨0.55, 0.8, 0.9⟩)]

/-- Nose exactly at the shoulder midpoint: the neck estimate coincides with
the shoulder midpoint and `calculate_angle` returns `None`. -/
def exDegenerate : LandmarksDict :=
  [(NOSE, ⟨0.5, 0.5, 0.9⟩), (LEFT_SHOULDER, ⟨0.4, 0.5, 0.9⟩),
   (RIGHT_SHOULDER, ⟨0.6, 0.5, 0.9⟩),
   (LEFT_HIP, ⟨0.45, 0.8, 0.9⟩), (RIGHT_HIP, ⟨0.55, 0.8, 0.9⟩)]

/-- Reliable shoulders only; no nose, no hips. -/
def exShouldersOnly : LandmarksDict :=
  [(LEFT_SHOULDER, ⟨0.4, 0.5, 0.9⟩), (RIGHT_SHOULDER, ⟨0.6, 0.5, 0.9⟩)]

/-- Nose with score exactly `0.3`, reliable shoulders, no hips. -/
def exNoseAtThreshold : LandmarksDict :=
  [(NOSE, ⟨0.1, 0.5, 0.3⟩), (LEFT_SHOULDER, ⟨0.4, 0.5, 0.9⟩),
   (RIGHT_SHOULDER, ⟨0.6, 0.5, 0.9⟩)]

/-- Both shoulders with score exactly `0.3`; no other landmarks. -/
def exShouldersAtThreshold : LandmarksDict :=
  [(LEFT_SHOULDER, ⟨0.4, 0.5, 0.3⟩), (RIGHT_SHOULDER, ⟨0.6, 0.5, 0.3⟩)]

/-- Non-empty dict without shoulders. -/
def exNoShoulders : LandmarksDict := [(NOSE, ⟨0.5, 0.2, 0.9⟩)]

/-- Reliable shoulders, one unreliable hip, the other hip absent. -/
def exMissingHips : LandmarksDict :=
  [(LEFT_SHOULDER, ⟨0.4, 0.5, 0.9⟩), (RIGHT_SHOULDER, ⟨0.6, 0.5, 0.9⟩),
   (LEFT_HIP, ⟨0.45, 0.8, 0.1⟩)]

-- ### Helper lemmas

theorem reliable_ge_isEmpty_false (d : LandmarksDict) (k : Nat) (t : ℝ)
    (h : reliable_ge (d.get k) t) : d.isEmpty = false := by
  cases d with
  | nil => exact h.elim
  | cons x xs => rfl

theorem analyze_posture_hip_eq (t : ℝ) (d : LandmarksDict) (a : ℝ)
    (hs : shoulders_reliable d) (hh : hips_reliable d) (ha : hip_angle d = some a) :
    analyze_posture t d = hip_branch_verdict t a := by
  have hne : d.isEmpty = false := reliable_ge_isEmpty_false d _ _ hs.1
  simp [analyze_posture, hne, hs, hh, ha]

theorem analyze_posture_so_eq (t : ℝ) (d : LandmarksDict)
    (hs : shoulders_reliable d) (hr : ¬ hips_reliable d ∨ hip_angle d = none) :
    analyze_posture t d = shoulder_only_branch (neck_of d) (shoulder_mid_of d) := by
  have hne : d.isEmpty = false := reliable_ge_isEmpty_false d _ _ hs.1
  rcases hr with hr | hr
  · simp [analyze_posture, hne, hs, hr]
  · simp [analyze_posture, hne, hs, hr]

theorem hip_is_slouched_iff (t a : ℝ) :
    (hip_branch_verdict t a).is_slouched = true ↔ a < 180 - t := by
  unfold hip_branch_verdict
  split_ifs with h <;> simp [h]

theorem hip_conf_bounds (t a : ℝ) :
    0 ≤ (hip_branch_verdict t a).confidence ∧ (hip_branch_verdict t a).confidence ≤ 1 := by
  unfold hip_branch_verdict
  split_ifs with h
  · exact ⟨le_min (by norm_num) (div_nonneg (by linarith) (by norm_num)), min_le_left _ _⟩
  · push_neg at h
    exact ⟨le_min (by norm_num) (div_nonneg (by linarith) (by norm_num)), min_le_left _ _⟩

theorem so_conf_bounds (neck sm : ℝ × ℝ) :
    0 ≤ (shoulder_only_branch neck sm).confidence ∧
      (shoulder_only_branch neck sm).confidence ≤ 1 := by
  unfold shoulder_only_branch
  split_ifs with h h2
  · constructor
    · exact le_max_of_le_left (le_min (by norm_num) (div_nonneg (abs_nonneg _) (by norm_num)))
    · exact max_le (min_le_left _ _) (min_le_left _ _)
  · constructor
    · exact le_min (by norm_num) (div_nonneg (abs_nonneg _) (by norm_num))
    · exact min_le_left _ _
  · push_neg at h
    constructor
    · exact le_min (by norm_num) (div_nonneg (by linarith [h.1]) (by norm_num))
    · exact min_le_left _ _

theorem so_is_slouched_iff (neck sm : ℝ × ℝ) :
    (shoulder_only_branch neck sm).is_slouched = true ↔
      (y_diff neck sm < -0.015 ∨ 75 < so_angle neck sm) := by
  unfold shoulder_only_branch
  split_ifs with h <;> simp [h]

theorem so_angle_ne_none (neck sm : ℝ × ℝ) : (shoulder_only_branch neck sm).angle ≠ none := by
  unfold shoulder_only_branch
  split_ifs with h <;> simp

-- ### Concrete evaluations on the example dictionaries

theorem exCollinear_shoulders : shoulders_reliable exCollinear := by
  constructor <;> · show (0.3 : ℝ) ≤ 0.9; norm_num

theorem exCollinear_hips : hips_reliable exCollinear := by
  constructor <;> · show (0.3 : ℝ) ≤ 0.9; norm_num

theorem exCollinear_sm : shoulder_mid_of exCollinear = (0.5, 0.5) := by
  show ((((0.4 : ℝ) + 0.6) / 2, ((0.5 : ℝ) + 0.5) / 2)) = (0.5, 0.5)
  norm_num

theorem exCollinear_neck : neck_of exCollinear = (0.5, 0.45) := by
  unfold neck_of
  rw [exCollinear_sm]
  show ((0.5 : ℝ), (0.5 : ℝ) - 0.05) = (0.5, 0.45)
  norm_num

theorem exCollinear_hm : hip_mid_of exCollinear = (0.5, 0.8) := by
  show ((((0.45 : ℝ) + 0.55) / 2, ((0.8 : ℝ) + 0.8) / 2)) = (0.5, 0.8)
  norm_num

theorem calc_angle_collinear : calculate_angle (0.5, 0.45) (0.5, 0.5) (0.5, 0.8) = some 180 := by
  unfold calculate_angle
  have h1 : Real.sqrt (((0.5 : ℝ) - 0.5) ^ 2 + ((0.45 : ℝ) - 0.5) ^ 2) = 0.05 := by
    rw [show ((0.5 : ℝ) - 0.5) ^ 2 + ((0.45 : ℝ) - 0.5) ^ 2 = 0.05 ^ 2 by norm_num]
    exact Real.sqrt_sq (by norm_num)
  have h2 : Real.sqrt (((0.5 : ℝ) - 0.5) ^ 2 + ((0.8 : ℝ) - 0.5) ^ 2) = 0.3 := by
    rw [show ((0.5 : ℝ) - 0.5) ^ 2 + ((0.8 : ℝ) - 0.5) ^ 2 = 0.3 ^ 2 by norm_num]
    exact Real.sqrt_sq (by norm_num)
  simp only [h1, h2]
  rw [if_neg (by norm_num)]
  have hc : max (-1 : ℝ) (min 1 ((((0.5 : ℝ) - 0.5) * ((0.5 : ℝ) - 0.5) +
      ((0.45 : ℝ) - 0.5) * ((0.8 : ℝ) - 0.5)) / (0.05 * 0.3))) = -1 := by
    rw [show ((((0.5 : ℝ) - 0.5) * ((0.5 : ℝ) - 0.5) +
      ((0.45 : ℝ) - 0.5) * ((0.8 : ℝ) - 0.5)) / ((0.05 : ℝ) * 0.3)) = -1 by norm_num]
    rw [min_eq_right (by norm_num), max_eq_right le_rfl]
  rw [hc, Real.arccos_neg_one]
  unfold degrees
  rw [mul_comm, mul_div_assoc, div_self Real.pi_ne_zero, mul_one]

theorem exCollinear_hip_angle : hip_angle exCollinear = some 180 := by
  unfold hip_angle
  rw [exCollinear_neck, exCollinear_sm, exCollinear_hm, calc_angle_collinear]

theorem exDegenerate_shoulders : shoulders_reliable exDegenerate := by
  constructor <;> · show (0.3 : ℝ) ≤ 0.9; norm_num

theorem exDegenerate_hips : hips_reliable exDegenerate := by
  constructor <;> · show (0.3 : ℝ) ≤ 0.9; norm_num

theorem exDegenerate_sm : shoulder_mid_of exDegenerate = (0.5, 0.5) := by
  show ((((0.4 : ℝ) + 0.6) / 2, ((0.5 : ℝ) + 0.5) / 2)) = (0.5, 0.5)
  norm_num

theorem exDegenerate_neck : neck_of exDegenerate = (0.5, 0.5) := by
  unfold neck_of
  rw [exDegenerate_sm]
  show neck_estimate (some ⟨0.5, 0.5, 0.9⟩) (0.5, 0.5) = (0.5, 0.5)
  unfold neck_estimate
  dsimp only
  rw [if_pos (by norm_num : (0.3 : ℝ) < 0.9)]
  norm_num

theorem exDegenerate_hm : hip_mid_of exDegenerate = (0.5, 0.8) := by
  show ((((0.45 : ℝ) + 0.55) / 2, ((0.8 : ℝ) + 0.8) / 2)) = (0.5, 0.8)
  norm_num

theorem calc_angle_degenerate : calculate_angle (0.5, 0.5) (0.5, 0.5) (0.5, 0.8) = none := by
  unfold calculate_angle
  have h1 : Real.sqrt (((0.5 : ℝ) - 0.5) ^ 2 + ((0.5 : ℝ) - 0.5) ^ 2) = 0 := by
    rw [show ((0.5 : ℝ) - 0.5) ^ 2 + ((0.5 : ℝ) - 0.5) ^ 2 = (0 : ℝ) by norm_num]
    exact Real.sqrt_zero
  simp only [h1]
  rw [if_pos (Or.inl trivial)]

theorem exDegenerate_hip_angle : hip_angle exDegenerate = none := by
  unfold hip_angle
  rw [exDegenerate_neck, exDegenerate_sm, exDegenerate_hm, calc_angle_degenerate]

theorem neck_of_synthetic (d : LandmarksDict) (hn : ¬ reliable_gt (d.get NOSE) 0.3) :
    neck_of d = ((shoulder_mid_of d).1, (shoulder_mid_of d).2 - 0.05) := by
  unfold neck_of neck_estimate
  cases hg : d.get NOSE with
  | none => rfl
  | some n =>
    rw [hg] at hn
    have hn' : ¬ (0.3 < n.confidence) := hn
    dsimp only
    rw [if_neg hn']

theorem so_synthetic (sm : ℝ × ℝ) :
    shoulder_only_branch (sm.1, sm.2 - 0.05) sm =
      { is_slouched := true, confidence := 1, angle := some 90,
        message := msg_slouched_pos } := by
  have ha : so_angle (sm.1, sm.2 - 0.05) sm = 90 := by
    unfold so_angle
    rw [if_pos (by simp)]
  have hy : y_diff (sm.1, sm.2 - 0.05) sm = -0.05 := by
    unfold y_diff
    ring
  unfold shoulder_only_branch
  rw [ha, hy]
  rw [if_pos (Or.inl (by norm_num : (-0.05 : ℝ) < -0.015))]
  rw [if_pos (by norm_num : (75 : ℝ) < 90)]
  congr 1
  rw [show min (1 : ℝ) (((90 : ℝ) - 75) / 15) = 1 by norm_num]
  exact max_eq_right (min_le_left _ _)

theorem exShouldersOnly_shoulders : shoulders_reliable exShouldersOnly := by
  constructor <;> · show (0.3 : ℝ) ≤ 0.9; norm_num

theorem exShouldersOnly_no_hips : ¬ hips_reliable exShouldersOnly := by
  intro h
  exact h.1

theorem exShouldersOnly_no_nose : ¬ reliable_gt (exShouldersOnly.get NOSE) 0.3 := by
  intro h
  exact h

theorem so_angle_field (neck sm : ℝ × ℝ) :
    (shoulder_only_branch neck sm).angle = some (so_angle neck sm) := by
  unfold shoulder_only_branch
  split_ifs with h <;> rfl

theorem so_message_cases (neck sm : ℝ × ℝ) :
    (shoulder_only_branch neck sm).message = msg_slouched_pos ∨
      (shoulder_only_branch neck sm).message = msg_ok_pos := by
  unfold shoulder_only_branch
  by_cases h : y_diff neck sm < -0.015 ∨ 75 < so_angle neck sm
  · rw [if_pos h]; left; rfl
  · rw [if_neg h]; right; rfl

-- ### Claim theorems

/-- C1: in the hip-based branch, for reliable shoulders and hips with a
computable angle, the verdict is slouched exactly when the angle is
strictly below `180 - threshold_angle`; with the default threshold `35`
the boundary `145` itself is not slouched while `144.9` is. -/
theorem c1_hip_branch_strict_boundary (t : ℝ) (d : LandmarksDict) (a : ℝ)
    (hs : shoulders_reliable d) (hh : hips_reliable d) (ha : hip_angle d = some a) :
    ((analyze_posture t d).is_slouched = true ↔ a < 180 - t)
    ∧ (a = 145 → (analyze_posture 35 d).is_slouched = false)
    ∧ (a = 144.9 → (analyze_posture 35 d).is_slouched = true) := by
  have h := analyze_posture_hip_eq t d a hs hh ha
  have h35 := analyze_posture_hip_eq 35 d a hs hh ha
  refine ⟨?_, ?_, ?_⟩
  · rw [h]; exact hip_is_slouched_iff t a
  · intro hae
    rw [h35, hae, ← Bool.not_eq_true]
    intro hb
    exact absurd ((hip_is_slouched_iff 35 145).mp hb) (by norm_num)
  · intro hae
    rw [h35, hae]
    exact (hip_is_slouched_iff 35 144.9).mpr (by norm_num)

/-- C1 witness: the collinear example computes angle `180` and is not
slouched. -/
theorem c1_witness :
    ((analyze_posture 35 exCollinear).is_slouched = true ↔ (180 : ℝ) < 180 - 35)
    ∧ ((180 : ℝ) = 145 → (analyze_posture 35 exCollinear).is_slouched = false)
    ∧ ((180 : ℝ) = 144.9 → (analyze_posture 35 exCollinear).is_slouched = true) :=
  c1_hip_branch_strict_boundary 35 exCollinear 180 exCollinear_shoulders exCollinear_hips
    exCollinear_hip_angle

/-- C2 counterexample: with the nose at the shoulder midpoint the hip-branch
vectors are degenerate (`calculate_angle` returns `None`), yet the result
is not a failure: the code falls through to the shoulder-only branch and
returns `is_slouched = true` with `angle = 90`, contradicting the claimed
`angle = null` and `is_slouched = false`. -/
theorem c2_counterexample :
    shoulders_reliable exDegenerate ∧ hips_reliable exDegenerate
    ∧ hip_angle exDegenerate = none
    ∧ (analyze_posture 35 exDegenerate).is_slouched = true
    ∧ (analyze_posture 35 exDegenerate).angle = some 90 := by
  have hso := analyze_posture_so_eq 35 exDegenerate exDegenerate_shoulders
    (Or.inr exDegenerate_hip_angle)
  have hang : so_angle (0.5, 0.5) (0.5, 0.5) = 90 := by
    unfold so_angle
    rw [if_pos (by norm_num)]
  refine ⟨exDegenerate_shoulders, exDegenerate_hips, exDegenerate_hip_angle, ?_, ?_⟩
  · rw [hso, exDegenerate_neck, exDegenerate_sm]
    exact (so_is_slouched_iff _ _).mpr (Or.inr (by rw [hang]; norm_num))
  · rw [hso, exDegenerate_neck, exDegenerate_sm, so_angle_field, hang]

/-- C2 (amended): when either hip-branch vector has zero length
(`calculate_angle` returns `None`), `analyze_posture` does not return a
failure result; it falls through to the shoulder-only branch, whose result
always carries a non-null angle. -/
theorem c2_amended (t : ℝ) (d : LandmarksDict)
    (hs : shoulders_reliable d) (_hh : hips_reliable d) (ha : hip_angle d = none) :
    analyze_posture t d = shoulder_only_branch (neck_of d) (shoulder_mid_of d)
    ∧ (analyze_posture t d).angle ≠ none := by
  have h := analyze_posture_so_eq t d hs (Or.inr ha)
  exact ⟨h, by rw [h]; exact so_angle_ne_none _ _⟩

/-- C2 witness: the degenerate example routes to the shoulder-only branch. -/
theorem c2_witness :
    analyze_posture 35 exDegenerate =
      shoulder_only_branch (neck_of exDegenerate) (shoulder_mid_of exDegenerate)
    ∧ (analyze_posture 35 exDegenerate).angle ≠ none :=
  c2_amended 35 exDegenerate exDegenerate_shoulders exDegenerate_hips exDegenerate_hip_angle

/-- C3: for every threshold and landmark dict the confidence of the result
lies in `[0, 1]`; in the shoulder-only not-slouched case the numerator
`0.015 + y_diff` is non-negative because not-slouched forces
`y_diff ≥ -0.015`. -/
theorem c3_confidence_bounds (t : ℝ) (d : LandmarksDict) :
    0 ≤ (analyze_posture t d).confidence ∧ (analyze_posture t d).confidence ≤ 1 := by
  by_cases h1 : d.isEmpty = true
  · rw [analyze_posture, if_pos h1]; norm_num
  · by_cases h2 : shoulders_reliable d
    · by_cases h3 : hips_reliable d
      · cases ha : hip_angle d with
        | none =>
          rw [analyze_posture_so_eq t d h2 (Or.inr ha)]
          exact so_conf_bounds _ _
        | some a =>
          rw [analyze_posture_hip_eq t d a h2 h3 ha]
          exact hip_conf_bounds t a
      · rw [analyze_posture_so_eq t d h2 (Or.inl h3)]
        exact so_conf_bounds _ _
    · rw [analyze_posture, if_neg h1, if_pos h2]
      norm_num

/-- C4: with reliable shoulders, a missing or unreliable hip never produces
a failure: the classifier degrades to the shoulder-only branch, whose
result always carries a verdict and a non-null angle (the source
implements the ADAPTIVE behaviour). -/
theorem c4_adaptive_degrade (t : ℝ) (d : LandmarksDict)
    (hs : shoulders_reliable d) (hh : ¬ hips_reliable d) :
    analyze_posture t d = shoulder_only_branch (neck_of d) (shoulder_mid_of d)
    ∧ (analyze_posture t d).angle ≠ none := by
  have h := analyze_posture_so_eq t d hs (Or.inl hh)
  exact ⟨h, by rw [h]; exact so_angle_ne_none _ _⟩

/-- C4 witness: reliable shoulders with no hips at all. -/
theorem c4_witness :
    analyze_posture 35 exShouldersOnly =
      shoulder_only_branch (neck_of exShouldersOnly) (shoulder_mid_of exShouldersOnly)
    ∧ (analyze_posture 35 exShouldersOnly).angle ≠ none :=
  c4_adaptive_degrade 35 exShouldersOnly exShouldersOnly_shoulders exShouldersOnly_no_hips

/-- C5 (spec-modelled STRICT variant): with reliable shoulders and at least
one hip missing or unreliable, the STRICT classifier returns a failure
result whose message enumerates by name exactly the missing required
landmarks (here: the unreliable hips, never the shoulders), and does not
fall back to the shoulder-only branch. -/
theorem c5_strict_missing_hips (st ta : ℝ) (d : LandmarksDict)
    (hls : reliable_ge (d.get LEFT_SHOULDER) st) (hrs : reliable_ge (d.get RIGHT_SHOULDER) st)
    (hh : ¬ reliable_ge (d.get LEFT_HIP) st ∨ ¬ reliable_ge (d.get RIGHT_HIP) st) :
    classify_strict st ta d =
      { is_slouched := false, confidence := 0, angle := none,
        message := strict_missing_msg (missing_required st d) }
    ∧ ("LEFT_HIP" ∈ missing_required st d ↔ ¬ reliable_ge (d.get LEFT_HIP) st)
    ∧ ("RIGHT_HIP" ∈ missing_required st d ↔ ¬ reliable_ge (d.get RIGHT_HIP) st)
    ∧ "LEFT_SHOULDER" ∉ missing_required st d
    ∧ "RIGHT_SHOULDER" ∉ missing_required st d := by
  have hne : d.isEmpty = false := reliable_ge_isEmpty_false d _ _ hls
  have hmm : missing_required st d =
      (if reliable_ge (d.get LEFT_HIP) st then [] else ["LEFT_HIP"]) ++
      (if reliable_ge (d.get RIGHT_HIP) st then [] else ["RIGHT_HIP"]) := by
    unfold missing_required
    rw [if_pos hls, if_pos hrs]
    rfl
  have hmr : missing_required st d ≠ [] := by
    rw [hmm]
    rcases hh with hh | hh
    · rw [if_neg hh]; simp
    · rw [if_neg hh]; simp
  refine ⟨?_, ?_, ?_, ?_, ?_⟩
  · rw [classify_strict, if_neg (by simp [hne]), if_neg (not_not_intro ⟨hls, hrs⟩),
      if_pos hmr]
  · rw [hmm]
    by_cases hL : reliable_ge (d.get LEFT_HIP) st <;>
      by_cases hR : reliable_ge (d.get RIGHT_HIP) st <;>
      simp [hL, hR, show ("LEFT_HIP" : String) ≠ "RIGHT_HIP" by decide]
  · rw [hmm]
    by_cases hL : reliable_ge (d.get LEFT_HIP) st <;>
      by_cases hR : reliable_ge (d.get RIGHT_HIP) st <;>
      simp [hL, hR, show ("RIGHT_HIP" : String) ≠ "LEFT_HIP" by decide]
  · rw [hmm]
    by_cases hL : reliable_ge (d.get LEFT_HIP) st <;>
      by_cases hR : reliable_ge (d.get RIGHT_HIP) st <;>
      simp [hL, hR, show ("LEFT_SHOULDER" : String) ≠ "LEFT_HIP" by decide,
        show ("LEFT_SHOULDER" : String) ≠ "RIGHT_HIP" by decide]
  · rw [hmm]
    by_cases hL : reliable_ge (d.get LEFT_HIP) st <;>
      by_cases hR : reliable_ge (d.get RIGHT_HIP) st <;>
      simp [hL, hR, show ("RIGHT_SHOULDER" : String) ≠ "LEFT_HIP" by decide,
        show ("RIGHT_SHOULDER" : String) ≠ "RIGHT_HIP" by decide]

/-- C5 witness: reliable shoulders, one hip at score `0.1`, the other hip
absent, score threshold `0.3`. -/
theorem c5_witness :
    classify_strict 0.3 35 exMissingHips =
      { is_slouched := false, confidence := 0, angle := none,
        message := strict_missing_msg (missing_required 0.3 exMissingHips) }
    ∧ ("LEFT_HIP" ∈ missing_required 0.3 exMissingHips ↔
        ¬ reliable_ge (exMissingHips.get LEFT_HIP) 0.3)
    ∧ ("RIGHT_HIP" ∈ missing_required 0.3 exMissingHips ↔
        ¬ reliable_ge (exMissingHips.get RIGHT_HIP) 0.3)
    ∧ "LEFT_SHOULDER" ∉ missing_required 0.3 exMissingHips
    ∧ "RIGHT_SHOULDER" ∉ missing_required 0.3 exMissingHips :=
  c5_strict_missing_hips 0.3 35 exMissingHips
    (by show (0.3 : ℝ) ≤ 0.9; norm_num)
    (by show (0.3 : ℝ) ≤ 0.9; norm_num)
    (Or.inl (by show ¬ ((0.3 : ℝ) ≤ 0.1); norm_num))

/-- C6: whenever the classifier is routed to the shoulder-only branch, the
verdict is slouched exactly when `y_diff < -0.015` or the angle exceeds
`75` degrees; at `y_diff = -0.015` exactly with angle at most `75` the
result is not slouched. -/
theorem c6_shoulder_only_triggers (t : ℝ) (d : LandmarksDict)
    (hs : shoulders_reliable d) (hr : ¬ hips_reliable d ∨ hip_angle d = none) :
    ((analyze_posture t d).is_slouched = true ↔
      (y_diff (neck_of d) (shoulder_mid_of d) < -0.015 ∨
        75 < so_angle (neck_of d) (shoulder_mid_of d)))
    ∧ (y_diff (neck_of d) (shoulder_mid_of d) = -0.015 →
        so_angle (neck_of d) (shoulder_mid_of d) ≤ 75 →
        (analyze_posture t d).is_slouched = false) := by
  have h := analyze_posture_so_eq t d hs hr
  rw [h]
  refine ⟨so_is_slouched_iff _ _, ?_⟩
  intro hy ha
  rw [← Bool.not_eq_true]
  intro hb
  rcases (so_is_slouched_iff _ _).mp hb with hc | hc
  · rw [hy] at hc
    exact absurd hc (by norm_num)
  · linarith

/-- C6 witness: shoulders only; the synthetic neck gives a vertical vector
(angle `90 > 75`), so the slouched trigger fires. -/
theorem c6_witness :
    ((analyze_posture 35 exShouldersOnly).is_slouched = true ↔
      (y_diff (neck_of exShouldersOnly) (shoulder_mid_of exShouldersOnly) < -0.015 ∨
        75 < so_angle (neck_of exShouldersOnly) (shoulder_mid_of exShouldersOnly)))
    ∧ (y_diff (neck_of exShouldersOnly) (shoulder_mid_of exShouldersOnly) = -0.015 →
        so_angle (neck_of exShouldersOnly) (shoulder_mid_of exShouldersOnly) ≤ 75 →
        (analyze_posture 35 exShouldersOnly).is_slouched = false) :=
  c6_shoulder_only_triggers 35 exShouldersOnly exShouldersOnly_shoulders
    (Or.inl exShouldersOnly_no_hips)

/-- C7 counterexample: a nose with score exactly `0.3` (the threshold) is
not used for the midpoint form — the code requires strictly `> 0.3` — so
the neck estimate is the offset `(shoulderMid.x, shoulderMid.y - 0.05)`,
not `midpoint(nose, shoulderMid)`, refuting the claim. -/
theorem c7_counterexample :
    shoulders_reliable exNoseAtThreshold
    ∧ exNoseAtThreshold.get NOSE = some ⟨0.1, 0.5, 0.3⟩
    ∧ shoulder_mid_of exNoseAtThreshold = (0.5, 0.5)
    ∧ neck_of exNoseAtThreshold = (0.5, 0.45)
    ∧ neck_of exNoseAtThreshold ≠ (((0.1 : ℝ) + 0.5) / 2, ((0.5 : ℝ) + 0.5) / 2) := by
  have hsm : shoulder_mid_of exNoseAtThreshold = (0.5, 0.5) := by
    show ((((0.4 : ℝ) + 0.6) / 2, ((0.5 : ℝ) + 0.5) / 2)) = (0.5, 0.5)
    norm_num
  have hneck : neck_of exNoseAtThreshold = (0.5, 0.45) := by
    unfold neck_of
    rw [hsm]
    show neck_estimate (some ⟨0.1, 0.5, 0.3⟩) (0.5, 0.5) = (0.5, 0.45)
    unfold neck_estimate
    dsimp only
    rw [if_neg (by norm_num : ¬ (0.3 : ℝ) < 0.3)]
    norm_num
  refine ⟨⟨?_, ?_⟩, rfl, hsm, hneck, ?_⟩
  · show (0.3 : ℝ) ≤ 0.9; norm_num
  · show (0.3 : ℝ) ≤ 0.9; norm_num
  · rw [hneck]
    intro hc
    have hfst := congrArg Prod.fst hc
    norm_num at hfst

/-- C7 (amended): the neck estimate uses the nose–shoulder midpoint exactly
when the nose is present with score strictly greater than `0.3`; a nose at
score `0.3` or below, or absent, yields the upward-offset fallback. -/
theorem c7_amended (n : Landmark) (sm : ℝ × ℝ) :
    (0.3 < n.confidence → neck_estimate (some n) sm = ((n.x + sm.1) / 2, (n.y + sm.2) / 2))
    ∧ (¬ 0.3 < n.confidence → neck_estimate (some n) sm = (sm.1, sm.2 - 0.05))
    ∧ neck_estimate none sm = (sm.1, sm.2 - 0.05) := by
  refine ⟨fun h => ?_, fun h => ?_, rfl⟩
  · unfold neck_estimate
    dsimp only
    rw [if_pos h]
  · unfold neck_estimate
    dsimp only
    rw [if_neg h]

/-- C7 witness: a reliable nose (score `0.5`) is used for the midpoint form;
a nose at score `0.2` is not. -/
theorem c7_witness :
    neck_estimate (some ⟨0.2, 0.1, 0.5⟩) (0.5, 0.5) =
      (((0.2 : ℝ) + 0.5) / 2, ((0.1 : ℝ) + 0.5) / 2)
    ∧ neck_estimate (some ⟨0.2, 0.1, 0.2⟩) (0.5, 0.5) = ((0.5 : ℝ), (0.5 : ℝ) - 0.05) :=
  ⟨(c7_amended ⟨0.2, 0.1, 0.5⟩ (0.5, 0.5)).1 (by norm_num),
   (c7_amended ⟨0.2, 0.1, 0.2⟩ (0.5, 0.5)).2.1 (by norm_num)⟩

/-- C8: `analyze_posture` is total (the Lean embedding is a total function)
and the two early failure conditions yield normally-shaped results: an
empty dict gives the generic no-pose failure, a dict failing the shoulder
gate gives the shoulders failure, the two messages are distinct and
non-empty, and shoulders whose score equals the threshold `0.3` exactly
pass the gate (the result is not a failure message). -/
theorem c8_failure_shapes (t : ℝ) (d : LandmarksDict)
    (hne : d.isEmpty = false) (hsf : ¬ shoulders_reliable d) :
    analyze_posture t ([] : LandmarksDict) =
      { is_slouched := false, confidence := 0, angle := none, message := msg_no_pose }
    ∧ analyze_posture t d =
      { is_slouched := false, confidence := 0, angle := none, message := msg_no_shoulders }
    ∧ msg_no_pose ≠ msg_no_shoulders
    ∧ msg_no_pose ≠ "" ∧ msg_no_shoulders ≠ ""
    ∧ shoulders_reliable exShouldersAtThreshold
    ∧ (analyze_posture t exShouldersAtThreshold).message ≠ msg_no_shoulders
    ∧ (analyze_posture t exShouldersAtThreshold).message ≠ msg_no_pose := by
  have hT : shoulders_reliable exShouldersAtThreshold := ⟨le_rfl, le_rfl⟩
  have hthr := analyze_posture_so_eq t exShouldersAtThreshold hT (Or.inl (fun h => h.1))
  refine ⟨?_, ?_, by decide, by decide, by decide, hT, ?_, ?_⟩
  · rw [analyze_posture, if_pos (show ([] : LandmarksDict).isEmpty = true from rfl)]
  · rw [analyze_posture, if_neg (by simp [hne]), if_pos hsf]
  · rw [hthr]
    rcases so_message_cases (neck_of exShouldersAtThreshold)
      (shoulder_mid_of exShouldersAtThreshold) with hm | hm <;> rw [hm] <;> decide
  · rw [hthr]
    rcases so_message_cases (neck_of exShouldersAtThreshold)
      (shoulder_mid_of exShouldersAtThreshold) with hm | hm <;> rw [hm] <;> decide

/-- C8 witness: a non-empty dict without shoulders. -/
theorem c8_witness :
    analyze_posture 35 ([] : LandmarksDict) =
      { is_slouched := false, confidence := 0, angle := none, message := msg_no_pose }
    ∧ analyze_posture 35 exNoShoulders =
      { is_slouched := false, confidence := 0, angle := none, message := msg_no_shoulders }
    ∧ msg_no_pose ≠ msg_no_shoulders
    ∧ msg_no_pose ≠ "" ∧ msg_no_shoulders ≠ ""
    ∧ shoulders_reliable exShouldersAtThreshold
    ∧ (analyze_posture 35 exShouldersAtThreshold).message ≠ msg_no_shoulders
    ∧ (analyze_posture 35 exShouldersAtThreshold).message ≠ msg_no_pose :=
  c8_failure_shapes 35 exNoShoulders rfl (fun h => h.1)

/-- C9: `analyze_posture` is deterministic and pure — the result is a
function of the threshold configuration and the landmark dict alone, so
any two results computed from the same pair are equal. -/
theorem c9_deterministic (t : ℝ) (d : LandmarksDict) (r₁ r₂ : PostureResult)
    (h₁ : r₁ = analyze_posture t d) (h₂ : r₂ = analyze_posture t d) : r₁ = r₂ := by
  rw [h₁, h₂]

/-- C9 witness. -/
theorem c9_witness : analyze_posture 35 exShouldersOnly = analyze_posture 35 exShouldersOnly :=
  c9_deterministic 35 exShouldersOnly (analyze_posture 35 exShouldersOnly)
    (analyze_posture 35 exShouldersOnly) rfl rfl

/-- C10: with reliable shoulders, a nose failing the strict `> 0.3` gate
and a failing hip gate, the synthetic neck offset forces
`y_diff = -0.05` and a vertical neck-to-shoulder vector, so the result is
always slouched with `angle = 90` and confidence saturated at `1`. -/
theorem c10_synthetic_neck_slouched (t : ℝ) (d : LandmarksDict)
    (hs : shoulders_reliable d) (hn : ¬ reliable_gt (d.get NOSE) 0.3)
    (hh : ¬ hips_reliable d) :
    (analyze_posture t d).is_slouched = true
    ∧ (analyze_posture t d).angle = some 90
    ∧ (analyze_posture t d).confidence = 1 := by
  have h := analyze_posture_so_eq t d hs (Or.inl hh)
  rw [h, neck_of_synthetic d hn, so_synthetic]
  exact ⟨rfl, rfl, rfl⟩

/-- C10 witness: shoulders only (nose and hips absent). -/
theorem c10_witness :
    (analyze_posture 35 exShouldersOnly).is_slouched = true
    ∧ (analyze_posture 35 exShouldersOnly).angle = some 90
    ∧ (analyze_posture 35 exShouldersOnly).confidence = 1 :=
  c10_synthetic_neck_slouched 35 exShouldersOnly exShouldersOnly_shoulders
    exShouldersOnly_no_nose exShouldersOnly_no_hips
